import Mathlib

/-!
Shallow embedding of the rnet socket layer (raylib network module) and
verification of the frozen claims about it.  Native platform calls
(getaddrinfo, socket, bind, connect, send, recv, select, inet_pton) are
modelled by explicit parameters carrying their results, so that every
function of the module becomes a pure Lean function of the socket state
and of the native outcomes it observes.
-/

namespace RNet

/-! Platform constants.  These are the POSIX/glibc values that the module
sees through its platform header on a Linux build; the claims only need
them to be fixed and pairwise distinct where the code distinguishes them. -/

def AF_UNSPEC : Nat := 0

def AF_INET : Nat := 2

def AF_INET6 : Nat := 10

def SOCK_STREAM : Nat := 1

def SOCK_DGRAM : Nat := 2

/-- Value of the AI_PASSIVE flag bit (glibc 0x0001). -/
def AI_PASSIVE : Nat := 1

/-- Value of the AI_NUMERICHOST flag bit (glibc 0x0004). -/
def AI_NUMERICHOST : Nat := 4

/-- Error code the module compares against for an interrupted call
(WSAEINTR on Windows, EINTR elsewhere; glibc value 4). -/
def EINTR : Nat := 4

/-- Error code for a would-block result (WSAEWOULDBLOCK / EWOULDBLOCK;
glibc value 11). -/
def EWOULDBLOCK : Nat := 11

/-- Size in bytes of the generic struct sockaddr. -/
def sizeofSockaddr : Nat := 16

/-- Size in bytes of struct sockaddr_in (IPv4). -/
def sizeofSockaddrIn : Nat := 16

/-- Size in bytes of struct sockaddr_in6 (IPv6). -/
def sizeofSockaddrIn6 : Nat := 28

/-- Socket type field of SocketConfig and Socket (SOCKET_TCP / SOCKET_UDP). -/
inductive SocketType where
  | TCP
  | UDP
deriving DecidableEq

/-- The fields of SocketConfig that the embedded operations consult. -/
structure SocketConfig where
  host : String
  port : String
  type : SocketType
  server : Bool
  nonblocking : Bool
  backlog_size : Nat
deriving DecidableEq

/-- The addrinfo fields that SocketSetHints writes (hints struct is
zeroed by memset first). -/
structure AddrHints where
  ai_family : Nat
  ai_socktype : Nat
  ai_flags : Nat
deriving DecidableEq

/-- Embedding of SocketSetHints (source lines 554-595).  The native
classifiers IsIPv4Address / IsIPv6Address wrap inet_pton, a platform
call, so they are passed in as parameters isV4 / isV6.  Faithful to the
source: the numeric-host branch uses a bitwise or on ai_flags, while the
final passive branch assigns ai_flags outright. -/
def SocketSetHints (isV4 isV6 : String → Bool) (config : SocketConfig) : AddrHints :=
  let hints : AddrHints := ⟨0, 0, 0⟩
  let hints :=
    if isV4 config.host then
      { hints with ai_family := AF_INET, ai_flags := hints.ai_flags ||| AI_NUMERICHOST }
    else if isV6 config.host then
      { hints with ai_family := AF_INET6, ai_flags := hints.ai_flags ||| AI_NUMERICHOST }
    else
      { hints with ai_family := AF_UNSPEC }
  let hints :=
    { hints with ai_socktype := if config.type = SocketType.UDP then SOCK_DGRAM else SOCK_STREAM }
  if ¬ (config.type = SocketType.UDP) ∨ config.server then
    { hints with ai_flags := AI_PASSIVE }
  else hints

/-! Candidate walk of CreateSocket. -/

/-- One resolved candidate (the fields of a native addrinfo node that
the CreateSocket walk consults). -/
structure Candidate where
  family : Nat
  addrBytes : List Nat
deriving DecidableEq

/-- Observable outcome of the CreateSocket candidate walk: whether it
succeeded, how many native socket() calls (channel opens) it performed,
and which address it snapshotted into which family slot. -/
structure CreateOutcome where
  success : Bool
  opens : Nat
  snapshotFamily : Option Nat
  snapshotBytes : Option (List Nat)
deriving DecidableEq

/-- Embedding of the candidate loop of CreateSocket (source lines
393-419).  openOk i / optionsOk i give the results of the native
socket() call and of the option application attempted on candidate i.
Every iteration calls InitSocket, which overwrites the channel with the
result of a fresh socket() call; an option failure aborts the whole
call; otherwise the loop continues past every candidate.  Returns
(abortedByOptions, finalChannelValid, nativeOpens). -/
def walkCandidates (openOk optionsOk : Nat → Bool) :
    Nat → List Candidate → Bool → Bool × Bool × Nat
  | _, [], channelValid => (false, channelValid, 0)
  | i, _ :: rest, _ =>
    let channelValid := openOk i
    if ¬ channelValid then
      let r := walkCandidates openOk optionsOk (i + 1) rest channelValid
      (r.1, r.2.1, r.2.2 + 1)
    else if ¬ optionsOk i then
      (true, channelValid, 1)
    else
      let r := walkCandidates openOk optionsOk (i + 1) rest channelValid
      (r.1, r.2.1, r.2.2 + 1)

/-- Embedding of CreateSocket after a successful resolution (source
lines 341-492).  cands is the resolver's candidate list (res).  After
the walk the code checks IsSocketValid (the channel left by the last
InitSocket) and, on success, snapshots the address of the head of the
candidate list (res->ai_addr) into the slot selected by the head's
family. -/
def CreateSocket (openOk optionsOk : Nat → Bool) (cands : List Candidate) : CreateOutcome :=
  match cands with
  | [] => ⟨false, 0, none, none⟩
  | c0 :: _ =>
    let r := walkCandidates openOk optionsOk 0 cands false
    if r.1 then ⟨false, r.2.2, none, none⟩
    else if ¬ r.2.1 then ⟨false, r.2.2, none, none⟩
    else ⟨true, r.2.2, some c0.family, some c0.addrBytes⟩

/-! Byte-level model of struct sockaddr_in, needed because SocketBind
copies address structures with a byte offset. -/

/-- Bytes of a struct sockaddr_in in its C layout: sin_family (2 bytes,
host order, little-endian x86), sin_port (2 bytes, network order),
sin_addr (4 bytes, network order), 8 bytes of zero padding. -/
def mkSockaddrIn (family port addr : Nat) : List Nat :=
  [family % 256, family / 256 % 256,
   port / 256 % 256, port % 256,
   addr / 2 ^ 24 % 256, addr / 2 ^ 16 % 256, addr / 2 ^ 8 % 256, addr % 256]
  ++ List.replicate 8 0

/-- Port stored in a sockaddr_in byte image: ntohs of the two bytes at
offset 2 (what the accessor pair reads back from a stored snapshot). -/
def snapshotPort (bytes : List Nat) : Nat :=
  bytes.getD 2 0 * 256 + bytes.getD 3 0

/-- The Socket fields the embedded operations consult.  addripv4 and
addripv6 hold the byte images of the sockaddr structures the module
allocates for the two family slots ([] plays the role of a null
pointer). -/
structure SocketB where
  channelValid : Bool
  isServer : Bool
  isIPv6 : Bool
  type : SocketType
  addripv4 : List Nat
  addripv6 : List Nat
  ready : Nat
  status : Nat
deriving DecidableEq

/-- Embedding of SocketBind (source lines 918-987).  server is
config->server; bindOk and getsocknameOk are the results of the native
bind and getsockname calls; boundAddr is the byte image getsockname
writes (the address actually bound to the channel); junk is the 4 bytes
that sit in memory directly after a 16-byte sockaddr_in, because the
snapshot copy reads sizeof(struct sockaddr_in) bytes starting at the
sin_addr field (offset 4) of the re-read address.  On success the code
resets ready and status, lets getsockname overwrite the family-selected
buffer in place, then allocates a fresh IPv4 slot and copies into it the
16 bytes starting at offset 4 of the re-read address. -/
def SocketBind (server : Bool) (bindOk getsocknameOk : Bool)
    (boundAddr junk : List Nat) (bindErr : Nat) (sock : SocketB) : Bool × SocketB :=
  if ¬ sock.channelValid ∨ ¬ server then (false, sock)
  else if ¬ bindOk then (false, { sock with status := bindErr })
  else
    let sock := { sock with ready := 0, status := 0 }
    if ¬ getsocknameOk then (true, sock)
    else
      let sock :=
        if sock.isIPv6 then { sock with addripv6 := boundAddr }
        else { sock with addripv4 := boundAddr }
      (true, { sock with addripv4 := (boundAddr.drop 4 ++ junk).take sizeofSockaddrIn })

/-! Data transfer: SocketSend. -/

/-- Result of one native send / sendto call: ok n for a return value of
n bytes, err c for a SOCKET_ERROR return with the platform error c. -/
inductive SendRes where
  | ok (n : Nat)
  | err (code : Nat)
deriving DecidableEq

/-- Embedding of the TCP partial-send loop of SocketSend (source lines
1431-1444).  Arguments: the remaining native send results, the bytes
left to send, the bytes sent so far, and the current platform error
slot (zeroed before the loop; a successful call leaves it unchanged, a
failing call sets it).  Returns the last send return value, the total
bytes sent and the final error slot; none if the trace runs out while
the loop would continue. -/
def tcpSendLoop : List SendRes → Nat → Nat → Nat → Option (Int × Nat × Nat)
  | [], _, _, _ => none
  | r :: rest, left, sent, errno =>
    match r with
    | SendRes.ok n =>
      let sent := sent + n
      let left := left - n
      if 0 < left ∧ (0 < n ∨ errno = EINTR) then tcpSendLoop rest left sent errno
      else some ((n : Int), sent, errno)
    | SendRes.err c =>
      if 0 < left ∧ c = EINTR then tcpSendLoop rest left sent c
      else some (-1, sent, c)

/-- Well-formedness of a native send trace for an initial byte count:
every successful partial send moves at least one byte and at most the
bytes still left. -/
def wfSendTrace : List SendRes → Nat → Bool
  | [], _ => true
  | SendRes.ok n :: rest, left =>
    decide (1 ≤ n) && decide (n ≤ left) && wfSendTrace rest (left - n)
  | SendRes.err _ :: rest, left => wfSendTrace rest left

/-- Observable outcome of SocketSend: its return value, how many native
sendto calls it made, the peer address bytes handed to sendto, the raw
sendto return value, and the status it leaves on the socket. -/
structure SendOutcome where
  retval : Int
  sendtoCalls : Nat
  sendtoTarget : Option (List Nat)
  sendtoNative : Int
  status : Nat
deriving DecidableEq

/-- Embedding of SocketSend (source lines 1411-1494).  tcpResults is
the native send trace consumed by the TCP loop; sendtoRes / sendtoErr
are the return value and error of the single native sendto call of the
UDP arm.  Faithful to the source: the UDP arm issues one sendto to the
family-selected stored peer address, but then tests the local variable
sent (still 0) rather than the sendto result, so it always takes the
success branch, clears the status and returns 1. -/
def SocketSend (sock : SocketB) (length : Nat) (tcpResults : List SendRes)
    (sendtoRes : Int) (sendtoErr : Nat) : Option (SendOutcome × SocketB) :=
  let sent : Int := 0
  if sock.isServer then some (⟨-1, 0, none, 0, sock.status⟩, sock)
  else
    match sock.type with
    | SocketType.TCP =>
      match tcpSendLoop tcpResults length 0 0 with
      | none => none
      | some (len, total, errno) =>
        if len = -1 then
          some (⟨(total : Int), 0, none, 0, errno⟩, { sock with status := errno })
        else
          some (⟨(total : Int), 0, none, 0, sock.status⟩, sock)
    | SocketType.UDP =>
      let target := if sock.isIPv6 then sock.addripv6 else sock.addripv4
      if sent ≥ 0 then
        some (⟨1, 1, some target, sendtoRes, 0⟩, { sock with status := 0 })
      else
        some (⟨0, 1, some target, sendtoRes, sendtoErr⟩, { sock with status := sendtoErr })

/-! Data transfer: SocketReceive. -/

/-- Result of one native recv / recvfrom call. -/
inductive RecvRes where
  | ok (n : Nat)
  | err (code : Nat)
deriving DecidableEq

/-- Embedding of the TCP recv retry loop of SocketReceive (source lines
1526-1529): recv is reissued while the platform error slot holds EINTR
(the slot is zeroed before the loop; success leaves it unchanged,
failure sets it).  Returns the final recv return value and error slot;
none if the trace runs out. -/
def tcpRecvLoop : List RecvRes → Nat → Option (Int × Nat)
  | [], _ => none
  | r :: rest, errno =>
    match r with
    | RecvRes.ok n =>
      if errno = EINTR then tcpRecvLoop rest errno else some ((n : Int), errno)
    | RecvRes.err c =>
      if c = EINTR then tcpRecvLoop rest c else some (-1, c)

/-- Observable outcome of SocketReceive: its return value and, for the
TCP arm, the buffer offset at which the convenience null terminator was
written (none when no terminator write happened). -/
structure RecvOutcome where
  retval : Int
  terminatorOffset : Option Nat
deriving DecidableEq

/-- Does a terminator write at the recorded offset stay inside a caller
buffer of maxlen bytes? -/
def terminatorInBounds (maxlen : Nat) (off : Option Nat) : Bool :=
  match off with
  | none => true
  | some k => decide (k < maxlen)

/-- Embedding of SocketReceive (source lines 1501-1583).  tcpResults is
the native recv trace; udpRes the single native recvfrom result;
staleErr the platform error slot content captured by the TCP-server
guard.  In the TCP arm a positive result len makes the code write a
null terminator at buffer offset len (the recv call was issued with the
full maxlen, so len may equal maxlen). -/
def SocketReceive (sock : SocketB) (maxlen : Nat) (tcpResults : List RecvRes)
    (udpRes : RecvRes) (staleErr : Nat) : Option (RecvOutcome × SocketB) :=
  if sock.isServer ∧ sock.type = SocketType.TCP then
    some (⟨0, none⟩, { sock with status := staleErr })
  else
    match sock.type with
    | SocketType.TCP =>
      match tcpRecvLoop tcpResults 0 with
      | none => none
      | some (len, _) =>
        some (⟨len, if 0 < len then some len.toNat else none⟩, { sock with ready := 0 })
    | SocketType.UDP =>
      match udpRes with
      | RecvRes.ok _ => some (⟨1, none⟩, { sock with ready := 0 })
      | RecvRes.err c => some (⟨0, none⟩, { sock with status := c })

/-! ConnectionOps: SocketConnect. -/

/-- Embedding of SocketConnect (source lines 1040-1137).  isV4 / isV6
are the native literal-address classifiers; connectRes / connectErr the
return value and platform error of the native connect call.  Returns
the success flag, the updated socket, the number of native connect
calls issued, and the destination handed to connect (family built from
the literal host together with the host and port strings it was built
from).  Faithful to the source: a server config fails without
connecting; a would-block error counts as success; any success path
finally resets ready and status; a client whose host is neither literal
form issues no connect and falls through as success. -/
def SocketConnect (isV4 isV6 : String → Bool) (config : SocketConfig)
    (connectRes : Int) (connectErr : Nat) (sock : SocketB) :
    Bool × SocketB × Nat × Option (Nat × String × String) :=
  if config.server then (false, sock, 0, none)
  else
    let finish : Bool × SocketB × Nat × Option (Nat × String × String) →
        Bool × SocketB × Nat × Option (Nat × String × String) := fun r =>
      if r.1 then (r.1, { r.2.1 with ready := 0, status := 0 }, r.2.2.1, r.2.2.2) else r
    if isV4 config.host then
      let dest := some (AF_INET, config.host, config.port)
      if connectRes = -1 then
        if connectErr = EWOULDBLOCK then
          finish (true, { sock with status := connectErr }, 1, dest)
        else (false, { sock with status := connectErr }, 1, dest)
      else finish (true, sock, 1, dest)
    else if isV6 config.host then
      let dest := some (AF_INET6, config.host, config.port)
      if connectRes = -1 then
        if connectErr = EWOULDBLOCK then
          finish (true, { sock with status := connectErr }, 1, dest)
        else (false, { sock with status := connectErr }, 1, dest)
      else finish (true, sock, 1, dest)
    else
      finish (true, sock, 0, none)

/-! SocketSet readiness: CheckSockets and the per-operation effect on
the ready flag. -/

/-- One member of a SocketSet, reduced to the fields CheckSockets
consults: its native descriptor and its ready flag. -/
structure SetMember where
  channel : Nat
  ready : Nat
deriving DecidableEq

/-- Embedding of the readiness-marking phase of CheckSockets (source
lines 1813-1823).  mask is the set of descriptors the native select
left in the readiness mask and retval its return value: when positive,
every member whose descriptor is in the mask gets ready set to 1;
nothing else is written. -/
def CheckSockets (members : List SetMember) (mask : List Nat) (retval : Int) :
    List SetMember :=
  if 0 < retval then
    members.map fun m => if m.channel ∈ mask then { m with ready := 1 } else m
  else members

/-- The operations of the module that read or write a socket's ready
flag, abstracted to their effect on that one field.  check inMask is a
CheckSockets call in which this socket's descriptor is (or is not) in
the readiness mask with a positive select return. -/
inductive SockOp where
  | check (inMask : Bool)
  | send
  | receiveTCP
  | receiveUDP
  | acceptServer
  | bindSuccess
  | listenSuccess
  | connectSuccess
deriving DecidableEq

/-- Effect of each operation on the ready flag, read off the source:
CheckSockets sets ready to 1 on masked members (line 1820) and never
writes otherwise; SocketSend never touches ready; SocketReceive zeroes
it on the TCP arm (line 1542) and on the successful UDP arm (line
1577); SocketAccept zeroes the server's flag (line 1209); SocketBind,
SocketListen and SocketConnect zero it on success (lines 962, 1033,
1132). -/
def readyStep : SockOp → Nat → Nat
  | SockOp.check true, _ => 1
  | SockOp.check false, r => r
  | SockOp.send, r => r
  | SockOp.receiveTCP, _ => 0
  | SockOp.receiveUDP, _ => 0
  | SockOp.acceptServer, _ => 0
  | SockOp.bindSuccess, _ => 0
  | SockOp.listenSuccess, _ => 0
  | SockOp.connectSuccess, _ => 0

/-- Is the operation a Send or a Receive? -/
def isSendOrReceiveOp : SockOp → Bool
  | SockOp.send => true
  | SockOp.receiveTCP => true
  | SockOp.receiveUDP => true
  | _ => false

/-! AddressResolver: ResolveHost. -/

/-- The fields of one native addrinfo node that ResolveHost copies. -/
structure NativeAddrInfo where
  ai_flags : Nat
  ai_family : Nat
  ai_socktype : Nat
  ai_protocol : Nat
  ai_addrlen : Nat
  ai_addrBytes : List Nat
deriving DecidableEq

/-- One owned entry produced by ResolveHost.  Its address buffer is the
sizeof(struct sockaddr) bytes allocated by AllocAddress. -/
structure AddrEntry where
  ai_flags : Nat
  ai_family : Nat
  ai_socktype : Nat
  ai_protocol : Nat
  ai_addrlen : Nat
  ai_addrBytes : List Nat
deriving DecidableEq

/-- The per-candidate copy performed by ResolveHost (source lines
836-841): the scalar fields are copied, and the address buffer receives
the struct assignment of one generic struct sockaddr, i.e. exactly
sizeofSockaddr bytes of the candidate's raw address (the calloc-zeroed
tail remains when the source is shorter). -/
def copyAddrInfo (c : NativeAddrInfo) : AddrEntry :=
  ⟨c.ai_flags, c.ai_family, c.ai_socktype, c.ai_protocol, c.ai_addrlen,
   c.ai_addrBytes.take sizeofSockaddr
     ++ List.replicate (sizeofSockaddr - c.ai_addrBytes.length) 0⟩

/-- Result of the native getaddrinfo call: failure with an error code,
or the linked list of candidates. -/
inductive NativeResolve where
  | fail (err : Nat)
  | ok (cands : List NativeAddrInfo)
deriving DecidableEq

/-- Embedding of ResolveHost (source lines 734-861): -1 when the native
resolution fails or yields zero candidates; otherwise the candidate
count together with the copied entries (allocation is modelled as
always succeeding). -/
def ResolveHost (native : NativeResolve) : Int × List AddrEntry :=
  match native with
  | NativeResolve.fail _ => (-1, [])
  | NativeResolve.ok cands =>
    if cands.length = 0 then (-1, [])
    else ((cands.length : Int), cands.map copyAddrInfo)

/-! UDPChannelBinding: SocketSetChannel / SocketUnsetChannel. -/

/-- One logical UDP channel: its bound count and its address array
(modelled as a list written in place at index numbound). -/
structure UDPChannel where
  numbound : Nat
  address : List Nat
deriving DecidableEq

/-- The channel-binding table of a socket; its length is
SOCKET_MAX_UDPCHANNELS (the capacity constant lives in the module's
header, so the table length stands for it here). -/
structure SockU where
  binding : List UDPChannel
deriving DecidableEq

/-- Embedding of ValidChannel (source lines 1257-1265). -/
def ValidChannel (maxChannels : Nat) (channel : Int) : Bool :=
  ¬ (channel < 0 ∨ (maxChannels : Int) ≤ channel)

/-- Index of the first channel slot with spare capacity (the auto-scan
of SocketSetChannel, source lines 1278-1286); the list length when
every slot is full. -/
def findFreeChannel (maxAddr : Nat) : List UDPChannel → Nat
  | [] => 0
  | b :: rest =>
    if b.numbound < maxAddr then 0 else findFreeChannel maxAddr rest + 1

/-- Shared tail of SocketSetChannel (source lines 1295-1301): reject a
full slot, otherwise store the address at position numbound of slot
idx, increment that slot's bound count and return retChan. -/
def setChannelAt (s : SockU) (retChan idx maxAddr addr : Nat) : Int × Option SockU :=
  let b := s.binding.getD idx ⟨maxAddr, []⟩
  if b.numbound = maxAddr then (-1, some s)
  else ((retChan : Int),
        some ⟨s.binding.set idx ⟨b.numbound + 1, b.address.set b.numbound addr⟩⟩)

/-- Embedding of SocketSetChannel (source lines 1268-1302).  maxAddr is
SOCKET_MAX_UDPADDRESSES; a channel argument of -1 requests the
auto-scan, which leaves the slot cursor on the last channel when every
slot is full (so the full check then fires on it). -/
def SocketSetChannel (maxAddr : Nat) (sock : Option SockU) (channel : Int)
    (addr : Nat) : Int × Option SockU :=
  match sock with
  | none => (-1, none)
  | some s =>
    let maxChannels := s.binding.length
    if channel = -1 then
      let j := findFreeChannel maxAddr s.binding
      let idx := if j = maxChannels then maxChannels - 1 else j
      setChannelAt s j idx maxAddr addr
    else if ¬ ValidChannel maxChannels channel then (-1, some s)
    else setChannelAt s channel.toNat channel.toNat maxAddr addr

/-- Embedding of SocketUnsetChannel (source lines 1305-1311): reset the
slot's bound count to zero for an in-range index, no-op otherwise. -/
def SocketUnsetChannel (s : SockU) (channel : Int) : SockU :=
  if 0 ≤ channel ∧ channel < (s.binding.length : Int) then
    let idx := channel.toNat
    let b := s.binding.getD idx ⟨0, []⟩
    ⟨s.binding.set idx ⟨0, b.address⟩⟩
  else s

/-- Concrete two-channel binding table used as a witness input: channel
0 holds no bound address, channel 1 is full at capacity 2. -/
def sockUW : SockU := ⟨[⟨0, [0, 0]⟩, ⟨2, [7, 8]⟩]⟩

/-! Theorems settling the claims. -/

/-- C1: the claim says socket creation stops at the first candidate for
which channel-open and all options succeed, opening no further native
channels and snapshotting that first workable candidate's address.
Evaluating the embedded CreateSocket walk refutes this on the code: with
two workable candidates the walk still performs two native channel
opens (overwriting the working channel), and with a candidate list
whose first entry fails to open while the second works, the snapshot
taken on success is the head candidate's address, not the first
workable candidate's. -/
theorem C1_create_walks_past_working_candidate :
    (CreateSocket (fun _ => true) (fun _ => true)
        ([⟨AF_INET, [1]⟩, ⟨AF_INET, [2]⟩] : List Candidate)).success = true ∧
    (CreateSocket (fun _ => true) (fun _ => true)
        ([⟨AF_INET, [1]⟩, ⟨AF_INET, [2]⟩] : List Candidate)).opens = 2 ∧
    (CreateSocket (fun i => i == 1) (fun _ => true)
        ([⟨AF_INET, [1]⟩, ⟨AF_INET, [2]⟩] : List Candidate)).success = true ∧
    (CreateSocket (fun i => i == 1) (fun _ => true)
        ([⟨AF_INET, [1]⟩, ⟨AF_INET, [2]⟩] : List Candidate)).snapshotBytes = some [1] := by
  decide

/-- C2: the claim says that after a successful Bind the stored snapshot
equals the address re-read from the channel, and that binding port "0"
makes the snapshot's port read back as the kernel-assigned ephemeral
port, greater than 0.  Evaluating the embedded SocketBind on an IPv4
server socket whose channel the kernel bound to the wildcard address at
ephemeral port 54321 shows the final snapshot differs from the re-read
address (the copy starts at the sin_addr field, four bytes into it) and
its port field reads back 0, not 54321. -/
theorem C2_bind_snapshot_port_not_ephemeral :
    (SocketBind true true true (mkSockaddrIn AF_INET 54321 0) [0, 0, 0, 0] 0
        ⟨true, true, false, SocketType.TCP, mkSockaddrIn AF_INET 0 0, [], 1, 3⟩).1 = true ∧
    snapshotPort (mkSockaddrIn AF_INET 54321 0) = 54321 ∧
    (SocketBind true true true (mkSockaddrIn AF_INET 54321 0) [0, 0, 0, 0] 0
        ⟨true, true, false, SocketType.TCP, mkSockaddrIn AF_INET 0 0, [], 1, 3⟩).2.addripv4
      ≠ mkSockaddrIn AF_INET 54321 0 ∧
    snapshotPort ((SocketBind true true true (mkSockaddrIn AF_INET 54321 0) [0, 0, 0, 0] 0
        ⟨true, true, false, SocketType.TCP, mkSockaddrIn AF_INET 0 0, [], 1, 3⟩).2.addripv4)
      = 0 := by
  decide

/-- C3: the claim says the UDP arm of Send returns 1 when the single
sendto succeeds and 0 when it fails.  Evaluating the embedded
SocketSend on a UDP client whose native sendto fails (returns -1 with a
would-block error) shows it still issues exactly one sendto to the
family-selected peer address but returns 1 and clears the status,
because the code tests the local variable sent (always 0) instead of
the sendto result. -/
theorem C3_udp_send_ignores_sendto_failure :
    SocketSend ⟨true, false, false, SocketType.UDP, mkSockaddrIn AF_INET 9999 1, [], 0, 7⟩
        5 [] (-1) EWOULDBLOCK
      = some (⟨1, 1, some (mkSockaddrIn AF_INET 9999 1), -1, 0⟩,
              ⟨true, false, false, SocketType.UDP, mkSockaddrIn AF_INET 9999 1, [], 0, 0⟩) := by
  decide

/-- C9: the claim says a TCP client with a literal IPv4 host gets the
numeric-host hint and the passive flag together.  Evaluating the
embedded SocketSetHints on such a configuration shows the passive
branch assigns ai_flags outright, leaving only AI_PASSIVE: the
AI_NUMERICHOST bit set by the literal-host branch is lost. -/
theorem C9_hints_passive_assignment_drops_numeric :
    (SocketSetHints (fun s => s == "127.0.0.1") (fun _ => false)
        ⟨"127.0.0.1", "8080", SocketType.TCP, false, false, 0⟩).ai_family = AF_INET ∧
    (SocketSetHints (fun s => s == "127.0.0.1") (fun _ => false)
        ⟨"127.0.0.1", "8080", SocketType.TCP, false, false, 0⟩).ai_socktype = SOCK_STREAM ∧
    (SocketSetHints (fun s => s == "127.0.0.1") (fun _ => false)
        ⟨"127.0.0.1", "8080", SocketType.TCP, false, false, 0⟩).ai_flags = AI_PASSIVE ∧
    (SocketSetHints (fun s => s == "127.0.0.1") (fun _ => false)
        ⟨"127.0.0.1", "8080", SocketType.TCP, false, false, 0⟩).ai_flags &&& AI_NUMERICHOST
      = 0 := by
  decide

/-- C10: the claim says the null terminator appended by the TCP arm of
Receive is written within the caller's maxlen-byte buffer even when the
received count equals maxlen.  Evaluating the embedded SocketReceive on
a TCP client with a 4-byte buffer whose recv returns 4 bytes shows the
terminator is written at offset 4, one past the end of the 4-byte
buffer: the recv call is issued with the full maxlen, so the write at
offset len is out of bounds exactly when len = maxlen. -/
theorem C10_receive_terminator_write_out_of_bounds :
    SocketReceive ⟨true, false, false, SocketType.TCP, [], [], 1, 0⟩ 4 [RecvRes.ok 4]
        (RecvRes.ok 0) 0
      = some (⟨4, some 4⟩, ⟨true, false, false, SocketType.TCP, [], [], 0, 0⟩) ∧
    terminatorInBounds 4 (some 4) = false := by
  decide

/-- C5 counterexample: the claim says a set ready flag transitions back
to 0 only at a Send or a Receive on that socket.  SocketAccept clears
the listening server's ready flag (source line 1209): the acceptServer
step takes the flag from 1 to 0 and is neither a Send nor a Receive. -/
theorem C5_accept_clears_ready_counterexample :
    readyStep SockOp.acceptServer 1 = 0 ∧
    isSendOrReceiveOp SockOp.acceptServer = false := by
  decide

/-- C6 counterexample: the claim says every returned entry carries the
complete raw address bytes, complete also for IPv6-sized addresses.
Evaluating the embedded ResolveHost on one IPv6 candidate with a
28-byte raw address shows the entry records ai_addrlen 28 but its
address buffer holds only the first sizeofSockaddr = 16 bytes. -/
theorem C6_ipv6_address_truncated_counterexample :
    (ResolveHost (NativeResolve.ok
        [⟨0, AF_INET6, SOCK_STREAM, 6, 28, List.range 28⟩])).1 = 1 ∧
    ((ResolveHost (NativeResolve.ok
        [⟨0, AF_INET6, SOCK_STREAM, 6, 28, List.range 28⟩])).2.headD
          ⟨0, 0, 0, 0, 0, []⟩).ai_addrlen = 28 ∧
    ((ResolveHost (NativeResolve.ok
        [⟨0, AF_INET6, SOCK_STREAM, 6, 28, List.range 28⟩])).2.headD
          ⟨0, 0, 0, 0, 0, []⟩).ai_addrBytes ≠ List.range 28 ∧
    ((ResolveHost (NativeResolve.ok
        [⟨0, AF_INET6, SOCK_STREAM, 6, 28, List.range 28⟩])).2.headD
          ⟨0, 0, 0, 0, 0, []⟩).ai_addrBytes = (List.range 28).take 16 := by
  decide

/-- Invariant of the TCP partial-send loop: over a well-formed trace
started with left bytes still to send, the loop's accumulated count
never exceeds sent + left, reaches exactly sent + left whenever the
last send did not fail, and on a failing last send the captured error
is not EINTR and the count is strictly short. -/
theorem tcpSendLoop_bounds (results : List SendRes) : ∀ (left sent errno : Nat),
    0 < left → wfSendTrace results left = true →
    ∀ (len : Int) (s e : Nat), tcpSendLoop results left sent errno = some (len, s, e) →
      s ≤ sent + left ∧ (len ≠ -1 → s = sent + left) ∧
      (len = -1 → e ≠ EINTR ∧ s < sent + left) := by
  induction results with
  | nil =>
    intro left sent errno _ _ len s e h
    simp [tcpSendLoop] at h
  | cons r rest ih =>
    intro left sent errno hl hwf len s e h
    cases r with
    | ok n =>
      simp only [wfSendTrace, Bool.and_eq_true, decide_eq_true_eq] at hwf
      obtain ⟨⟨h1, h2⟩, hwf'⟩ := hwf
      simp only [tcpSendLoop] at h
      by_cases hc : 0 < left - n ∧ (0 < n ∨ errno = EINTR)
      · rw [if_pos hc] at h
        have H := ih (left - n) (sent + n) errno hc.1 hwf' len s e h
        refine ⟨by omega, fun hne => ?_, fun hne => ?_⟩
        · have := H.2.1 hne; omega
        · have := H.2.2 hne; exact ⟨this.1, by omega⟩
      · rw [if_neg hc] at h
        have hn : 0 < n := h1
        have hleft : left - n = 0 := by
          by_contra hz
          exact hc ⟨Nat.pos_of_ne_zero hz, Or.inl hn⟩
        obtain ⟨rfl, rfl, rfl⟩ : (n : Int) = len ∧ sent + n = s ∧ errno = e := by
          injection h with h'
          injection h' with ha hb
          injection hb with hb hc
          exact ⟨ha, hb, hc⟩
        refine ⟨by omega, fun _ => by omega, fun hne => ?_⟩
        exact absurd hne (by omega)
    | err c =>
      simp only [wfSendTrace] at hwf
      simp only [tcpSendLoop] at h
      by_cases hc : 0 < left ∧ c = EINTR
      · rw [if_pos hc] at h
        exact ih left sent c hl hwf len s e h
      · rw [if_neg hc] at h
        obtain ⟨rfl, rfl, rfl⟩ : (-1 : Int) = len ∧ sent = s ∧ c = e := by
          injection h with h'
          injection h' with ha hb
          injection hb with hb hc
          exact ⟨ha, hb, hc⟩
        have hce : ¬ c = EINTR := fun hcc => hc ⟨hl, hcc⟩
        exact ⟨by omega, fun hne => absurd rfl hne, fun _ => ⟨hce, by omega⟩⟩

/-- C4: for a TCP, non-server socket and any well-formed sequence of
native partial-send results on which the loop terminates, Send
accumulates bytes until all length bytes are sent or a send call fails:
an EINTR result is retried without affecting the count, any other
error stops the loop with that error captured onto the socket, and the
return value is the accumulated count, equal to length on full success
and strictly less on error. -/
theorem C4_tcp_send_accumulates (sock : SocketB) (length : Nat) (results : List SendRes)
    (len : Int) (sent errno : Nat)
    (hserver : sock.isServer = false) (htype : sock.type = SocketType.TCP)
    (hlen : 0 < length) (hwf : wfSendTrace results length = true)
    (hloop : tcpSendLoop results length 0 0 = some (len, sent, errno)) :
    (len = -1 → SocketSend sock length results 0 0
        = some (⟨(sent : Int), 0, none, 0, errno⟩, { sock with status := errno })) ∧
    (len ≠ -1 → SocketSend sock length results 0 0
        = some (⟨(sent : Int), 0, none, 0, sock.status⟩, sock)) ∧
    sent ≤ length ∧
    (len ≠ -1 → sent = length) ∧
    (len = -1 → errno ≠ EINTR ∧ sent < length) ∧
    (∀ (rest : List SendRes) (left s e : Nat), 0 < left →
        tcpSendLoop (SendRes.err EINTR :: rest) left s e = tcpSendLoop rest left s EINTR) := by
  have H := tcpSendLoop_bounds results length 0 0 hlen hwf len sent errno hloop
  refine ⟨fun h1 => ?_, fun h1 => ?_, by omega, fun h1 => by have := H.2.1 h1; omega,
          fun h1 => by have := H.2.2 h1; exact ⟨this.1, by omega⟩,
          fun rest left s e hleft => ?_⟩
  · simp [SocketSend, hserver, htype, hloop, h1]
  · simp [SocketSend, hserver, htype, hloop, h1]
  · simp [tcpSendLoop, hleft, EINTR]

/-- Witness for C4 at a concrete trace: sending 3 bytes, the native
send is interrupted once (retried), then moves 2 bytes, then fails
with error 11; Send returns 2 with status 11 captured. -/
theorem C4_tcp_send_accumulates_witness :
    (((-1 : Int) = -1 → SocketSend ⟨true, false, false, SocketType.TCP, [], [], 0, 0⟩ 3
        [SendRes.err EINTR, SendRes.ok 2, SendRes.err 11] 0 0
        = some (⟨(2 : Nat), 0, none, 0, 11⟩,
                { channelValid := true, isServer := false, isIPv6 := false,
                  type := SocketType.TCP, addripv4 := [], addripv6 := [],
                  ready := 0, status := 11 })) ∧
     ((-1 : Int) ≠ -1 → SocketSend ⟨true, false, false, SocketType.TCP, [], [], 0, 0⟩ 3
        [SendRes.err EINTR, SendRes.ok 2, SendRes.err 11] 0 0
        = some (⟨(2 : Nat), 0, none, 0, 0⟩,
                ⟨true, false, false, SocketType.TCP, [], [], 0, 0⟩)) ∧
     2 ≤ 3 ∧
     ((-1 : Int) ≠ -1 → 2 = 3) ∧
     ((-1 : Int) = -1 → 11 ≠ EINTR ∧ 2 < 3) ∧
     (∀ (rest : List SendRes) (left s e : Nat), 0 < left →
        tcpSendLoop (SendRes.err EINTR :: rest) left s e = tcpSendLoop rest left s EINTR)) :=
  C4_tcp_send_accumulates ⟨true, false, false, SocketType.TCP, [], [], 0, 0⟩ 3
    [SendRes.err EINTR, SendRes.ok 2, SendRes.err 11] (-1) 2 11
    rfl rfl (by decide) (by decide) (by decide)

/-- C5 amended: Check never clears a ready flag (it only sets ready to
1 on members whose descriptor is in the readiness mask), and a set
ready flag transitions back to 0 only at a Receive, at an Accept on the
server socket, or at a successful Bind, Listen or Connect; a Send
leaves the flag unchanged, so Check-reported readiness persists until
one of those operations consumes it. -/
theorem C5_ready_cleared_only_by_consuming_ops :
    (∀ (members : List SetMember) (mask : List Nat) (retval : Int) (i : Nat) (m : SetMember),
        members[i]? = some m → m.ready = 1 →
        ∃ m', (CheckSockets members mask retval)[i]? = some m' ∧ m'.ready = 1) ∧
    (∀ (op : SockOp), readyStep op 1 = 0 →
        op = SockOp.receiveTCP ∨ op = SockOp.receiveUDP ∨ op = SockOp.acceptServer ∨
        op = SockOp.bindSuccess ∨ op = SockOp.listenSuccess ∨ op = SockOp.connectSuccess) ∧
    (∀ (r : Nat), readyStep SockOp.send r = r) ∧
    (∀ (b : Bool) (r : Nat), r ≤ 1 → r ≤ readyStep (SockOp.check b) r) ∧
    (∀ (sock : SocketB) (length : Nat) (tr : List SendRes) (a : Int) (b : Nat)
        (out : SendOutcome) (sock' : SocketB),
        SocketSend sock length tr a b = some (out, sock') → sock'.ready = sock.ready) := by
  refine ⟨?_, ?_, ?_, ?_, ?_⟩
  · intro members mask retval i m hm hready
    unfold CheckSockets
    by_cases hr : 0 < retval
    · refine ⟨if m.channel ∈ mask then { m with ready := 1 } else m, ?_, ?_⟩
      · simp [if_pos hr, List.getElem?_map, hm]
      · by_cases hc : m.channel ∈ mask
        · simp [hc]
        · simpa [hc] using hready
    · exact ⟨m, by simp [if_neg hr, hm], hready⟩
  · intro op h
    cases op with
    | check b => cases b <;> simp [readyStep] at h
    | send => simp [readyStep] at h
    | receiveTCP => exact Or.inl rfl
    | receiveUDP => exact Or.inr (Or.inl rfl)
    | acceptServer => exact Or.inr (Or.inr (Or.inl rfl))
    | bindSuccess => exact Or.inr (Or.inr (Or.inr (Or.inl rfl)))
    | listenSuccess => exact Or.inr (Or.inr (Or.inr (Or.inr (Or.inl rfl))))
    | connectSuccess => exact Or.inr (Or.inr (Or.inr (Or.inr (Or.inr rfl))))
  · intro r; rfl
  · intro b r hr; cases b <;> simp [readyStep] <;> omega
  · intro sock length tr a b out sock' h
    by_cases hs : sock.isServer
    · simp only [SocketSend, hs, if_pos] at h
      injection h with h'
      injection h' with ha hb
      rw [← hb]
    · cases ht : sock.type with
      | TCP =>
        simp only [SocketSend, hs, ht, if_neg, Bool.false_eq_true, not_false_iff] at h
        cases hl : tcpSendLoop tr length 0 0 with
        | none => rw [hl] at h; simp at h
        | some v =>
          obtain ⟨len, total, errno⟩ := v
          rw [hl] at h
          by_cases he : len = -1
          · simp only [he, if_pos rfl] at h
            injection h with h'
            injection h' with ha hb
            rw [← hb]
          · simp only [if_neg he] at h
            injection h with h'
            injection h' with ha hb
            rw [← hb]
      | UDP =>
        simp only [SocketSend, hs, ht, if_neg, Bool.false_eq_true, not_false_iff] at h
        simp only [ge_iff_le, le_refl, if_pos] at h
        injection h with h'
        injection h' with ha hb
        rw [← hb]

/-- Witness for C5's amended theorem at concrete inputs: a ready member
stays ready through Check with an empty mask, the send step leaves a
set flag alone, and a concrete Send on a ready TCP socket leaves its
ready flag at 1. -/
theorem C5_ready_cleared_only_by_consuming_ops_witness :
    (∃ m', (CheckSockets [⟨5, 1⟩] [] 2)[0]? = some m' ∧ m'.ready = 1) ∧
    (SockOp.acceptServer = SockOp.receiveTCP ∨ SockOp.acceptServer = SockOp.receiveUDP ∨
      SockOp.acceptServer = SockOp.acceptServer ∨ SockOp.acceptServer = SockOp.bindSuccess ∨
      SockOp.acceptServer = SockOp.listenSuccess ∨
      SockOp.acceptServer = SockOp.connectSuccess) ∧
    (readyStep SockOp.send 1 = 1) ∧
    ((1 : Nat) ≤ readyStep (SockOp.check true) 1) ∧
    ((⟨true, false, false, SocketType.TCP, [], [], 1, 0⟩ : SocketB).ready
      = (⟨true, false, false, SocketType.TCP, [], [], 1, 0⟩ : SocketB).ready) :=
  ⟨C5_ready_cleared_only_by_consuming_ops.1 [⟨5, 1⟩] [] 2 0 ⟨5, 1⟩ (by decide) (by decide),
   C5_ready_cleared_only_by_consuming_ops.2.1 SockOp.acceptServer (by decide),
   C5_ready_cleared_only_by_consuming_ops.2.2.1 1,
   C5_ready_cleared_only_by_consuming_ops.2.2.2.1 true 1 (by decide),
   C5_ready_cleared_only_by_consuming_ops.2.2.2.2
     ⟨true, false, false, SocketType.TCP, [], [], 1, 0⟩ 1 [SendRes.ok 1] 0 0
     ⟨1, 0, none, 0, 0⟩ ⟨true, false, false, SocketType.TCP, [], [], 1, 0⟩ (by decide)⟩

/-- C6 amended: ResolveHost returns -1 exactly when native resolution
fails or yields zero candidates; otherwise it returns the native
candidate count, and each returned entry is an independently owned copy
of the corresponding candidate's family, socket type, protocol and
address length, together with the first sizeofSockaddr (16) bytes of
the raw address — complete for IPv4-sized addresses but truncated for
IPv6-sized ones — and every entry's family is IPv4 or IPv6 whenever the
native candidates' are. -/
theorem C6_resolve_host_amended (cands : List NativeAddrInfo) (hne : cands ≠ [])
    (hfam : ∀ c ∈ cands, c.ai_family = AF_INET ∨ c.ai_family = AF_INET6) :
    (∀ e, ResolveHost (NativeResolve.fail e) = (-1, [])) ∧
    ResolveHost (NativeResolve.ok []) = (-1, []) ∧
    (ResolveHost (NativeResolve.ok cands)).1 = (cands.length : Int) ∧
    (ResolveHost (NativeResolve.ok cands)).2.length = cands.length ∧
    (ResolveHost (NativeResolve.ok cands)).2 = cands.map copyAddrInfo ∧
    (∀ c ∈ cands,
        (copyAddrInfo c).ai_family = c.ai_family ∧
        (copyAddrInfo c).ai_socktype = c.ai_socktype ∧
        (copyAddrInfo c).ai_protocol = c.ai_protocol ∧
        (copyAddrInfo c).ai_addrlen = c.ai_addrlen ∧
        (copyAddrInfo c).ai_addrBytes
          = c.ai_addrBytes.take sizeofSockaddr
              ++ List.replicate (sizeofSockaddr - c.ai_addrBytes.length) 0 ∧
        (c.ai_addrBytes.length ≤ sizeofSockaddr →
          (copyAddrInfo c).ai_addrBytes.take c.ai_addrBytes.length = c.ai_addrBytes)) ∧
    (∀ e ∈ (ResolveHost (NativeResolve.ok cands)).2,
        e.ai_family = AF_INET ∨ e.ai_family = AF_INET6) := by
  have hlen : ¬ cands.length = 0 := by
    simpa [List.length_eq_zero] using hne
  refine ⟨fun e => rfl, rfl, by simp [ResolveHost, hlen], by simp [ResolveHost, hlen],
          by simp [ResolveHost, hlen], fun c _ => ?_, fun e he => ?_⟩
  · refine ⟨rfl, rfl, rfl, rfl, rfl, fun hle => ?_⟩
    simp only [copyAddrInfo]
    rw [List.take_of_length_le hle, List.take_left]
  · have h2 : (ResolveHost (NativeResolve.ok cands)).2 = cands.map copyAddrInfo := by
      simp [ResolveHost, hlen]
    rw [h2, List.mem_map] at he
    obtain ⟨c, hc, rfl⟩ := he
    simpa [copyAddrInfo] using hfam c hc

/-- Witness for C6's amended theorem at one concrete IPv4 candidate
whose 16-byte raw address is copied completely. -/
theorem C6_resolve_host_amended_witness :
    (∀ e, ResolveHost (NativeResolve.fail e) = (-1, [])) ∧
    ResolveHost (NativeResolve.ok []) = (-1, []) ∧
    (ResolveHost (NativeResolve.ok [⟨0, 2, 2, 17, 16, List.range 16⟩])).1
      = (([⟨0, 2, 2, 17, 16, List.range 16⟩] : List NativeAddrInfo).length : Int) ∧
    (ResolveHost (NativeResolve.ok [⟨0, 2, 2, 17, 16, List.range 16⟩])).2.length
      = ([⟨0, 2, 2, 17, 16, List.range 16⟩] : List NativeAddrInfo).length ∧
    (ResolveHost (NativeResolve.ok [⟨0, 2, 2, 17, 16, List.range 16⟩])).2
      = ([⟨0, 2, 2, 17, 16, List.range 16⟩] : List NativeAddrInfo).map copyAddrInfo ∧
    (∀ c ∈ ([⟨0, 2, 2, 17, 16, List.range 16⟩] : List NativeAddrInfo),
        (copyAddrInfo c).ai_family = c.ai_family ∧
        (copyAddrInfo c).ai_socktype = c.ai_socktype ∧
        (copyAddrInfo c).ai_protocol = c.ai_protocol ∧
        (copyAddrInfo c).ai_addrlen = c.ai_addrlen ∧
        (copyAddrInfo c).ai_addrBytes
          = c.ai_addrBytes.take sizeofSockaddr
              ++ List.replicate (sizeofSockaddr - c.ai_addrBytes.length) 0 ∧
        (c.ai_addrBytes.length ≤ sizeofSockaddr →
          (copyAddrInfo c).ai_addrBytes.take c.ai_addrBytes.length = c.ai_addrBytes)) ∧
    (∀ e ∈ (ResolveHost (NativeResolve.ok [⟨0, 2, 2, 17, 16, List.range 16⟩])).2,
        e.ai_family = AF_INET ∨ e.ai_family = AF_INET6) :=
  C6_resolve_host_amended [⟨0, 2, 2, 17, 16, List.range 16⟩] (by decide) (by decide)

/-- C7: Connect on a server configuration fails without issuing any
native connect; on a client configuration whose host is a literal IPv4
or IPv6 string it builds the family-matching destination from the host
and port strings, issues exactly one native connect, reports success
when connect succeeds and also when it fails with would-block (resetting
ready and status), and reports failure with the platform error captured
onto the socket for any other connect error. -/
theorem C7_connect_role_wouldblock_and_error (isV4 isV6 : String → Bool)
    (config : SocketConfig) (connectRes : Int) (connectErr : Nat) (sock : SocketB) :
    (config.server = true →
        SocketConnect isV4 isV6 config connectRes connectErr sock = (false, sock, 0, none)) ∧
    (config.server = false → isV4 config.host = true →
        (connectRes ≠ -1 →
          SocketConnect isV4 isV6 config connectRes connectErr sock
            = (true, { sock with ready := 0, status := 0 }, 1,
               some (AF_INET, config.host, config.port))) ∧
        (connectRes = -1 → connectErr = EWOULDBLOCK →
          SocketConnect isV4 isV6 config connectRes connectErr sock
            = (true, { sock with ready := 0, status := 0 }, 1,
               some (AF_INET, config.host, config.port))) ∧
        (connectRes = -1 → connectErr ≠ EWOULDBLOCK →
          SocketConnect isV4 isV6 config connectRes connectErr sock
            = (false, { sock with status := connectErr }, 1,
               some (AF_INET, config.host, config.port)))) ∧
    (config.server = false → isV4 config.host = false → isV6 config.host = true →
        (connectRes ≠ -1 →
          SocketConnect isV4 isV6 config connectRes connectErr sock
            = (true, { sock with ready := 0, status := 0 }, 1,
               some (AF_INET6, config.host, config.port))) ∧
        (connectRes = -1 → connectErr = EWOULDBLOCK →
          SocketConnect isV4 isV6 config connectRes connectErr sock
            = (true, { sock with ready := 0, status := 0 }, 1,
               some (AF_INET6, config.host, config.port))) ∧
        (connectRes = -1 → connectErr ≠ EWOULDBLOCK →
          SocketConnect isV4 isV6 config connectRes connectErr sock
            = (false, { sock with status := connectErr }, 1,
               some (AF_INET6, config.host, config.port)))) := by
  refine ⟨fun hs => by simp [SocketConnect, hs], fun hs h4 => ⟨?_, ?_, ?_⟩,
          fun hs h4 h6 => ⟨?_, ?_, ?_⟩⟩
  · intro hres
    simp [SocketConnect, hs, h4, hres]
  · intro hres herr
    simp [SocketConnect, hs, h4, hres, herr]
  · intro hres herr
    simp [SocketConnect, hs, h4, hres, herr]
  · intro hres
    simp [SocketConnect, hs, h4, h6, hres]
  · intro hres herr
    simp [SocketConnect, hs, h4, h6, hres, herr]
  · intro hres herr
    simp [SocketConnect, hs, h4, h6, hres, herr]

/-- Witness for C7 at a concrete client configuration with a literal
IPv4 host whose non-blocking connect reports would-block: Connect
reports success-in-progress. -/
theorem C7_connect_role_wouldblock_and_error_witness :
    SocketConnect (fun s => s == "1.2.3.4") (fun _ => false)
        ⟨"1.2.3.4", "80", SocketType.TCP, false, true, 0⟩ (-1) EWOULDBLOCK
        ⟨true, false, false, SocketType.TCP, [], [], 1, 5⟩
      = (true, ⟨true, false, false, SocketType.TCP, [], [], 0, 0⟩, 1,
         some (AF_INET, "1.2.3.4", "80")) :=
  ((C7_connect_role_wouldblock_and_error (fun s => s == "1.2.3.4") (fun _ => false)
      ⟨"1.2.3.4", "80", SocketType.TCP, false, true, 0⟩ (-1) EWOULDBLOCK
      ⟨true, false, false, SocketType.TCP, [], [], 1, 5⟩).2.1 rfl (by decide)).2.1 rfl rfl

/-- Specification of the auto-scan: its result is at most the table
length; when it is strictly below, the slot it points at has spare
capacity; when it equals the length, every slot is full. -/
theorem findFreeChannel_spec (maxAddr : Nat) (l : List UDPChannel) :
    findFreeChannel maxAddr l ≤ l.length ∧
    (findFreeChannel maxAddr l < l.length →
      (l.getD (findFreeChannel maxAddr l) ⟨maxAddr, []⟩).numbound < maxAddr) ∧
    (findFreeChannel maxAddr l = l.length → ∀ b ∈ l, maxAddr ≤ b.numbound) := by
  induction l with
  | nil =>
    refine ⟨Nat.le_refl 0, fun h => absurd h (by simp [findFreeChannel]), fun _ b hb => ?_⟩
    simp at hb
  | cons b rest ih =>
    by_cases hb : b.numbound < maxAddr
    · refine ⟨by simp [findFreeChannel, hb], fun _ => ?_, fun h => ?_⟩
      · simpa [findFreeChannel, hb] using hb
      · simp [findFreeChannel, hb] at h
    · refine ⟨?_, fun h => ?_, fun h => ?_⟩
      · simp only [findFreeChannel, if_neg hb, List.length_cons]
        have := ih.1
        omega
      · simp only [findFreeChannel, if_neg hb, List.length_cons] at h ⊢
        rw [List.getD_cons_succ]
        exact ih.2.1 (by omega)
      · simp only [findFreeChannel, if_neg hb, List.length_cons] at h
        intro x hx
        rcases List.mem_cons.mp hx with rfl | hx'
        · omega
        · exact ih.2.2 (by omega) x hx'

/-- Case analysis of the shared slot-update tail of SocketSetChannel:
a full slot yields -1 with the table unchanged, otherwise the slot is
bumped and retChan returned. -/
theorem setChannelAt_cases (maxAddr : Nat) (s : SockU) (retChan idx addr : Nat) :
    ((s.binding.getD idx ⟨maxAddr, []⟩).numbound = maxAddr →
      setChannelAt s retChan idx maxAddr addr = (-1, some s)) ∧
    ((s.binding.getD idx ⟨maxAddr, []⟩).numbound ≠ maxAddr →
      setChannelAt s retChan idx maxAddr addr
        = ((retChan : Int), some ⟨s.binding.set idx
            ⟨(s.binding.getD idx ⟨maxAddr, []⟩).numbound + 1,
             (s.binding.getD idx ⟨maxAddr, []⟩).address.set
               (s.binding.getD idx ⟨maxAddr, []⟩).numbound addr⟩⟩)) := by
  constructor
  · intro h
    simp only [setChannelAt]
    rw [if_pos h]
  · intro h
    simp only [setChannelAt]
    rw [if_neg h]

/-- The slot-update tail preserves the per-channel capacity invariant. -/
theorem setChannelAt_inv (maxAddr : Nat) (s : SockU) (retChan idx addr : Nat)
    (hinv : ∀ b ∈ s.binding, b.numbound ≤ maxAddr) (r : Int) (s' : SockU)
    (h : setChannelAt s retChan idx maxAddr addr = (r, some s')) :
    ∀ b ∈ s'.binding, b.numbound ≤ maxAddr := by
  by_cases hf : (s.binding.getD idx ⟨maxAddr, []⟩).numbound = maxAddr
  · rw [(setChannelAt_cases maxAddr s retChan idx addr).1 hf] at h
    injection h with h1 h2
    injection h2 with h2
    rw [← h2]
    exact hinv
  · rw [(setChannelAt_cases maxAddr s retChan idx addr).2 hf] at h
    injection h with h1 h2
    injection h2 with h2
    rw [← h2]
    intro b hb
    rcases List.mem_or_eq_of_mem_set hb with hb' | rfl
    · exact hinv b hb'
    · have hle : (s.binding.getD idx ⟨maxAddr, []⟩).numbound ≤ maxAddr := by
        by_cases hidx : idx < s.binding.length
        · rw [List.getD_eq_getElem _ _ hidx]
          exact hinv _ (List.getElem_mem hidx)
        · rw [List.getD_eq_default _ _ (by omega)]
      simp only
      omega

/-- C8: for a socket whose per-channel bound counts respect the
capacity, SetChannel returns -1 leaving every bound count unchanged on
a null socket, an out-of-range explicit index, a full target slot, or
an auto request with no spare capacity; otherwise it appends the
address to exactly one slot, increments only that slot's bound count
and returns that slot's in-range index, preserving the capacity
invariant; and UnsetChannel resets a valid channel's bound count to
zero while being a no-op on an invalid index. -/
theorem C8_channel_binding_bounded (maxAddr : Nat) (s : SockU)
    (hinv : ∀ b ∈ s.binding, b.numbound ≤ maxAddr) :
    (∀ (ch : Int) (addr : Nat), SocketSetChannel maxAddr none ch addr = (-1, none)) ∧
    (∀ (ch : Int) (addr : Nat), ch ≠ -1 → ValidChannel s.binding.length ch = false →
        SocketSetChannel maxAddr (some s) ch addr = (-1, some s)) ∧
    (∀ (ch : Int) (addr : Nat), ch ≠ -1 → ValidChannel s.binding.length ch = true →
        (s.binding.getD ch.toNat ⟨maxAddr, []⟩).numbound = maxAddr →
        SocketSetChannel maxAddr (some s) ch addr = (-1, some s)) ∧
    ((∀ b ∈ s.binding, b.numbound = maxAddr) → ∀ addr : Nat,
        SocketSetChannel maxAddr (some s) (-1) addr = (-1, some s)) ∧
    (∀ (ch : Int) (addr : Nat), ch ≠ -1 → ValidChannel s.binding.length ch = true →
        (s.binding.getD ch.toNat ⟨maxAddr, []⟩).numbound < maxAddr →
        SocketSetChannel maxAddr (some s) ch addr
          = (ch, some ⟨s.binding.set ch.toNat
              ⟨(s.binding.getD ch.toNat ⟨maxAddr, []⟩).numbound + 1,
               (s.binding.getD ch.toNat ⟨maxAddr, []⟩).address.set
                 (s.binding.getD ch.toNat ⟨maxAddr, []⟩).numbound addr⟩⟩)) ∧
    (∀ addr : Nat, (∃ b ∈ s.binding, b.numbound < maxAddr) →
        findFreeChannel maxAddr s.binding < s.binding.length ∧
        SocketSetChannel maxAddr (some s) (-1) addr
          = ((findFreeChannel maxAddr s.binding : Int), some ⟨s.binding.set
              (findFreeChannel maxAddr s.binding)
              ⟨(s.binding.getD (findFreeChannel maxAddr s.binding) ⟨maxAddr, []⟩).numbound + 1,
               (s.binding.getD (findFreeChannel maxAddr s.binding) ⟨maxAddr, []⟩).address.set
                 (s.binding.getD (findFreeChannel maxAddr s.binding) ⟨maxAddr, []⟩).numbound
                 addr⟩⟩)) ∧
    (∀ (ch : Int) (addr : Nat) (r : Int) (s' : SockU),
        SocketSetChannel maxAddr (some s) ch addr = (r, some s') →
        ∀ b ∈ s'.binding, b.numbound ≤ maxAddr) ∧
    (∀ (ch : Int) (addr : Nat) (r : Int) (s' : SockU),
        SocketSetChannel maxAddr (some s) ch addr = (r, some s') → r ≠ -1 →
        0 ≤ r ∧ r < (s.binding.length : Int)) ∧
    (∀ ch : Int, 0 ≤ ch → ch < (s.binding.length : Int) →
        ∃ b', (SocketUnsetChannel s ch).binding[ch.toNat]? = some b' ∧ b'.numbound = 0) ∧
    (∀ ch : Int, ¬ (0 ≤ ch ∧ ch < (s.binding.length : Int)) →
        SocketUnsetChannel s ch = s) := by
  have hspec := findFreeChannel_spec maxAddr s.binding
  have hautored : ∀ addr : Nat, SocketSetChannel maxAddr (some s) (-1) addr
      = setChannelAt s (findFreeChannel maxAddr s.binding)
          (if findFreeChannel maxAddr s.binding = s.binding.length
           then s.binding.length - 1 else findFreeChannel maxAddr s.binding) maxAddr addr := by
    intro addr
    simp only [SocketSetChannel]
    rw [if_pos trivial]
  have hvalidred : ∀ (ch : Int) (addr : Nat), ch ≠ -1 →
      ValidChannel s.binding.length ch = true →
      SocketSetChannel maxAddr (some s) ch addr
        = setChannelAt s ch.toNat ch.toNat maxAddr addr := by
    intro ch addr hch hv
    simp only [SocketSetChannel]
    rw [if_neg hch, hv]
    simp
  have hinvalidred : ∀ (ch : Int) (addr : Nat), ch ≠ -1 →
      ValidChannel s.binding.length ch = false →
      SocketSetChannel maxAddr (some s) ch addr = (-1, some s) := by
    intro ch addr hch hv
    simp only [SocketSetChannel]
    rw [if_neg hch, hv]
    simp
  have hbounds : ∀ ch : Int, ValidChannel s.binding.length ch = true →
      0 ≤ ch ∧ ch < (s.binding.length : Int) := by
    intro ch hv
    simp only [ValidChannel, decide_eq_true_eq, not_or, not_lt, not_le] at hv
    exact hv
  refine ⟨fun ch addr => rfl, hinvalidred, ?_, ?_, ?_, ?_, ?_, ?_, ?_, ?_⟩
  · intro ch addr hch hv hfull
    rw [hvalidred ch addr hch hv]
    exact (setChannelAt_cases maxAddr s ch.toNat ch.toNat addr).1 hfull
  · intro hall addr
    rw [hautored addr]
    have hj : findFreeChannel maxAddr s.binding = s.binding.length := by
      by_contra hne'
      have hlt : findFreeChannel maxAddr s.binding < s.binding.length :=
        lt_of_le_of_ne hspec.1 hne'
      have h1 := hspec.2.1 hlt
      have hmem : s.binding.getD (findFreeChannel maxAddr s.binding) ⟨maxAddr, []⟩
          ∈ s.binding := by
        rw [List.getD_eq_getElem _ _ hlt]
        exact List.getElem_mem hlt
      have := hall _ hmem
      omega
    rw [hj, if_pos rfl]
    apply (setChannelAt_cases maxAddr s s.binding.length (s.binding.length - 1) addr).1
    by_cases hnil : s.binding.length = 0
    · rw [List.getD_eq_default _ _ (by omega)]
    · have hlt2 : s.binding.length - 1 < s.binding.length := by omega
      rw [List.getD_eq_getElem _ _ hlt2]
      exact hall _ (List.getElem_mem hlt2)
  · intro ch addr hch hv hroom
    rw [hvalidred ch addr hch hv,
        (setChannelAt_cases maxAddr s ch.toNat ch.toNat addr).2 (by omega)]
    have h0 := hbounds ch hv
    rw [Int.toNat_of_nonneg h0.1]
  · intro addr hex
    have hlt : findFreeChannel maxAddr s.binding < s.binding.length := by
      rcases Nat.lt_or_ge (findFreeChannel maxAddr s.binding) s.binding.length with h | h
      · exact h
      · have hj : findFreeChannel maxAddr s.binding = s.binding.length :=
          Nat.le_antisymm hspec.1 h
        obtain ⟨b, hb, hblt⟩ := hex
        have := hspec.2.2 hj b hb
        omega
    have hfree := hspec.2.1 hlt
    refine ⟨hlt, ?_⟩
    rw [hautored addr, if_neg (by omega),
        (setChannelAt_cases maxAddr s (findFreeChannel maxAddr s.binding)
          (findFreeChannel maxAddr s.binding) addr).2 (by omega)]
  · intro ch addr r s' h
    by_cases hch : ch = -1
    · subst hch
      rw [hautored addr] at h
      exact setChannelAt_inv maxAddr s _ _ addr hinv r s' h
    · by_cases hv : ValidChannel s.binding.length ch = true
      · rw [hvalidred ch addr hch hv] at h
        exact setChannelAt_inv maxAddr s _ _ addr hinv r s' h
      · have hvf : ValidChannel s.binding.length ch = false := by
          simpa using hv
        rw [hinvalidred ch addr hch hvf] at h
        injection h with h1 h2
        injection h2 with h2
        rw [← h2]
        exact hinv
  · intro ch addr r s' h hr
    by_cases hch : ch = -1
    · subst hch
      rw [hautored addr] at h
      by_cases hjl : findFreeChannel maxAddr s.binding < s.binding.length
      · have hfree := hspec.2.1 hjl
        rw [if_neg (by omega),
            (setChannelAt_cases maxAddr s (findFreeChannel maxAddr s.binding)
              (findFreeChannel maxAddr s.binding) addr).2 (by omega)] at h
        injection h with h1 h2
        rw [← h1]
        constructor
        · omega
        · omega
      · have hj : findFreeChannel maxAddr s.binding = s.binding.length :=
          Nat.le_antisymm hspec.1 (by omega)
        rw [hj, if_pos rfl] at h
        have hfull : (s.binding.getD (s.binding.length - 1) ⟨maxAddr, []⟩).numbound
            = maxAddr := by
          by_cases hnil : s.binding.length = 0
          · rw [List.getD_eq_default _ _ (by omega)]
          · have hlt2 : s.binding.length - 1 < s.binding.length := by omega
            rw [List.getD_eq_getElem _ _ hlt2]
            have hmem := List.getElem_mem hlt2
            have h1 := hspec.2.2 hj _ hmem
            have h2 := hinv _ hmem
            omega
        rw [(setChannelAt_cases maxAddr s s.binding.length
              (s.binding.length - 1) addr).1 hfull] at h
        injection h with h1 h2
        exact absurd h1.symm hr
    · by_cases hv : ValidChannel s.binding.length ch = true
      · have h0 := hbounds ch hv
        rw [hvalidred ch addr hch hv] at h
        by_cases hfull : (s.binding.getD ch.toNat ⟨maxAddr, []⟩).numbound = maxAddr
        · rw [(setChannelAt_cases maxAddr s ch.toNat ch.toNat addr).1 hfull] at h
          injection h with h1 h2
          exact absurd h1.symm hr
        · rw [(setChannelAt_cases maxAddr s ch.toNat ch.toNat addr).2 hfull] at h
          injection h with h1 h2
          rw [← h1]
          constructor
          · omega
          · omega
      · have hvf : ValidChannel s.binding.length ch = false := by
          simpa using hv
        rw [hinvalidred ch addr hch hvf] at h
        injection h with h1 h2
        exact absurd h1.symm hr
  · intro ch h0 hlen
    have hlt : ch.toNat < s.binding.length := by omega
    simp only [SocketUnsetChannel]
    rw [if_pos ⟨h0, hlen⟩]
    exact ⟨⟨0, (s.binding.getD ch.toNat ⟨0, []⟩).address⟩,
           List.getElem?_set_eq_of_lt _ hlt, rfl⟩
  · intro ch hnot
    simp only [SocketUnsetChannel]
    rw [if_neg hnot]

/-- Witness for C8 at the concrete two-channel table sockUW with
per-channel capacity 2. -/
theorem C8_channel_binding_bounded_witness :
    (∀ (ch : Int) (addr : Nat), SocketSetChannel 2 none ch addr = (-1, none)) ∧
    (∀ (ch : Int) (addr : Nat), ch ≠ -1 → ValidChannel sockUW.binding.length ch = false →
        SocketSetChannel 2 (some sockUW) ch addr = (-1, some sockUW)) ∧
    (∀ (ch : Int) (addr : Nat), ch ≠ -1 → ValidChannel sockUW.binding.length ch = true →
        (sockUW.binding.getD ch.toNat ⟨2, []⟩).numbound = 2 →
        SocketSetChannel 2 (some sockUW) ch addr = (-1, some sockUW)) ∧
    ((∀ b ∈ sockUW.binding, b.numbound = 2) → ∀ addr : Nat,
        SocketSetChannel 2 (some sockUW) (-1) addr = (-1, some sockUW)) ∧
    (∀ (ch : Int) (addr : Nat), ch ≠ -1 → ValidChannel sockUW.binding.length ch = true →
        (sockUW.binding.getD ch.toNat ⟨2, []⟩).numbound < 2 →
        SocketSetChannel 2 (some sockUW) ch addr
          = (ch, some ⟨sockUW.binding.set ch.toNat
              ⟨(sockUW.binding.getD ch.toNat ⟨2, []⟩).numbound + 1,
               (sockUW.binding.getD ch.toNat ⟨2, []⟩).address.set
                 (sockUW.binding.getD ch.toNat ⟨2, []⟩).numbound addr⟩⟩)) ∧
    (∀ addr : Nat, (∃ b ∈ sockUW.binding, b.numbound < 2) →
        findFreeChannel 2 sockUW.binding < sockUW.binding.length ∧
        SocketSetChannel 2 (some sockUW) (-1) addr
          = ((findFreeChannel 2 sockUW.binding : Int), some ⟨sockUW.binding.set
              (findFreeChannel 2 sockUW.binding)
              ⟨(sockUW.binding.getD (findFreeChannel 2 sockUW.binding) ⟨2, []⟩).numbound + 1,
               (sockUW.binding.getD (findFreeChannel 2 sockUW.binding) ⟨2, []⟩).address.set
                 (sockUW.binding.getD (findFreeChannel 2 sockUW.binding) ⟨2, []⟩).numbound
                 addr⟩⟩)) ∧
    (∀ (ch : Int) (addr : Nat) (r : Int) (s' : SockU),
        SocketSetChannel 2 (some sockUW) ch addr = (r, some s') →
        ∀ b ∈ s'.binding, b.numbound ≤ 2) ∧
    (∀ (ch : Int) (addr : Nat) (r : Int) (s' : SockU),
        SocketSetChannel 2 (some sockUW) ch addr = (r, some s') → r ≠ -1 →
        0 ≤ r ∧ r < (sockUW.binding.length : Int)) ∧
    (∀ ch : Int, 0 ≤ ch → ch < (sockUW.binding.length : Int) →
        ∃ b', (SocketUnsetChannel sockUW ch).binding[ch.toNat]? = some b' ∧
              b'.numbound = 0) ∧
    (∀ ch : Int, ¬ (0 ≤ ch ∧ ch < (sockUW.binding.length : Int)) →
        SocketUnsetChannel sockUW ch = sockUW) :=
  C8_channel_binding_bounded 2 sockUW (by decide)

end RNet
